import Mathlib

/-!
Verification of the live-reloading orchestrator (`src/with_std.rs`).

The development shallowly embeds the `Reloadable<Host>` struct and its
operations (`new`, `reload`, `reload_now`, `update`, `realloc_buffer`,
`save_state`, `load_state`, drop glue) as pure Lean functions.  Dynamic
library loading, the filesystem watcher and paths are abstracted into
explicit environments:

* a loader `Nat → Option (ReloadApi Host)` gives, for the n-th load
  attempt since construction, either the resolved `RELOAD_API` table or
  `none` (an I/O failure: missing file or missing symbol);
* paths are opaque values (`Nat`), and the events the `notify` watcher
  queues are mirrored by the `DebouncedEvent` type;
* each operation additionally returns the list of module entry points it
  invoked (`Ev` values tagged with the identity of the load they belong
  to), so temporal claims about the lifecycle protocol become statements
  about these traces.

The state buffer is a `List Nat` of 64-bit words, exactly mirroring the
`Vec<u64>` of the source; `bytesOf` exposes its little-endian byte view
for byte-level claims.
-/

namespace LiveReload

/-- Mirrors `live_reload::ShouldQuit` (`lib.rs`). -/
inductive ShouldQuit where
  | No
  | Yes
deriving DecidableEq, Repr

/-- Mirrors `with_std::Error`: the `Io`, `Watch` and `MismatchedHost`
variants (payloads dropped). -/
inductive Error where
  | Io
  | Watch
  | MismatchedHost
deriving DecidableEq, Repr

/-- Mirrors `notify::DebouncedEvent` as matched in `Reloadable::reload`.
Paths are opaque `Nat` values. -/
inductive DebouncedEvent where
  | NoticeWrite (path : Nat)
  | NoticeRemove (path : Nat)
  | Create (path : Nat)
  | Write (path : Nat)
  | Chmod (path : Nat)
  | Remove (path : Nat)
  | Rename (from_ to_ : Nat)
  | Rescan
  | Error
deriving DecidableEq, Repr

/-- Mirrors `internals::ReloadApi<Host>`: the six lifecycle entry points
resolved from the `RELOAD_API` symbol.  Entry points receive the host by
mutable reference and a raw pointer to the state buffer; here they map
`(host, buffer)` to the updated `(host, buffer)` (plus the continuation
signal for `update`). -/
structure ReloadApi (Host : Type) where
  size : Nat
  init : Host → List Nat → Host × List Nat
  reload : Host → List Nat → Host × List Nat
  update : Host → List Nat → Host × List Nat × ShouldQuit
  unload : Host → List Nat → Host × List Nat
  deinit : Host → List Nat → Host × List Nat

/-- Observable module-boundary events: which entry point of which load
was invoked, and when a load's library resource was released.  Loads are
numbered by the attempt counter (construction's load is number 0). -/
inductive Ev where
  | init (id : Nat)
  | reload (id : Nat)
  | update (id : Nat)
  | unload (id : Nat)
  | deinit (id : Nat)
  | release (id : Nat)
deriving DecidableEq, Repr

/-- Mirrors `Reloadable<Host>`.  `sym` holds the load id and resolved API
table of the currently loaded library (`Option<AppSym<Host>>`); `state`
is the `Vec<u64>` state buffer; `rx` the queue of debounced watcher
events not yet drained; `nextLoad` numbers load attempts (bookkeeping
that identifies loads in traces). -/
structure Reloadable (Host : Type) where
  path : Nat
  sym : Option (Nat × ReloadApi Host)
  state : List Nat
  rx : List DebouncedEvent
  host : Host
  nextLoad : Nat

/-- Semantics of `Vec::resize(n, x)`: truncate when shrinking, append
copies of `x` when growing. -/
def vecResize (v : List Nat) (n : Nat) (x : Nat) : List Nat :=
  if n ≤ v.length then v.take n else v ++ List.replicate (n - v.length) x

/-- Mirrors `Reloadable::realloc_buffer`: resize the `Vec<u64>` to
`(size + 7) / 8` words, zero-filling any new words. -/
def realloc_buffer (state : List Nat) (size : Nat) : List Nat :=
  vecResize state ((size + 7) / 8) 0

/-- Little-endian byte view of one `u64` word. -/
def wordBytes (w : Nat) : List Nat :=
  [w % 256, w / 256 % 256, w / 256 ^ 2 % 256, w / 256 ^ 3 % 256,
   w / 256 ^ 4 % 256, w / 256 ^ 5 % 256, w / 256 ^ 6 % 256, w / 256 ^ 7 % 256]

/-- Byte view of the whole state buffer. -/
def bytesOf : List Nat → List Nat
  | [] => []
  | w :: ws => wordBytes w ++ bytesOf ws

/-- Mirrors `SaveState`: a saved copy of the state buffer. -/
structure SaveState where
  state : List Nat

/-- Mirrors `Reloadable::save_state`. -/
def save_state {Host : Type} (r : Reloadable Host) : SaveState :=
  { state := r.state }

/-- Mirrors `Reloadable::load_state`: `clear` followed by
`extend_from_slice` replaces the buffer's contents with the snapshot's. -/
def load_state {Host : Type} (r : Reloadable Host) (s : SaveState) :
    Reloadable Host :=
  { r with state := s.state }

/-- Mirrors `Reloadable::update`: when a library is loaded, invoke its
`update` entry on the host and state buffer and return its signal;
otherwise do nothing and return `ShouldQuit::No`. -/
def update {Host : Type} (r : Reloadable Host) :
    Reloadable Host × List Ev × ShouldQuit :=
  match r.sym with
  | some (i, api) =>
      let out := api.update r.host r.state
      ({ r with host := out.1, state := out.2.1 }, [Ev.update i], out.2.2)
  | none => (r, [], ShouldQuit.No)

/-- First half of `Reloadable::reload_now`: if a library is loaded,
invoke its `unload` entry, then drop the `AppSym` (releasing the
library resource) by setting `sym` to `None`. -/
def unload_phase {Host : Type} (r : Reloadable Host) :
    Reloadable Host × List Ev :=
  match r.sym with
  | some (i, api) =>
      let out := api.unload r.host r.state
      ({ r with host := out.1, state := out.2, sym := none },
       [Ev.unload i, Ev.release i])
  | none => (r, [])

/-- Mirrors `Reloadable::reload_now`: unload and release the current
library (if any), attempt a fresh load; on failure return `Err(Io)`
leaving no library loaded; on success resize the buffer to the new
module's declared size, invoke its `reload` entry, and store the new
`AppSym`. -/
def reload_now {Host : Type} (loader : Nat → Option (ReloadApi Host))
    (r : Reloadable Host) :
    Reloadable Host × List Ev × Except Error Unit :=
  match loader (unload_phase r).1.nextLoad with
  | none =>
      ({ (unload_phase r).1 with
          nextLoad := (unload_phase r).1.nextLoad + 1 },
       (unload_phase r).2, Except.error Error.Io)
  | some api =>
      ({ (unload_phase r).1 with
          host := (api.reload (unload_phase r).1.host
            (realloc_buffer (unload_phase r).1.state api.size)).1,
          state := (api.reload (unload_phase r).1.host
            (realloc_buffer (unload_phase r).1.state api.size)).2,
          sym := some ((unload_phase r).1.nextLoad, api),
          nextLoad := (unload_phase r).1.nextLoad + 1 },
       (unload_phase r).2 ++ [Ev.reload (unload_phase r).1.nextLoad],
       Except.ok ())

/-- One step of the drain loop in `Reloadable::reload`: a
`NoticeWrite`/`Write`/`Create` event whose path equals the watched
(canonicalized) path sets `should_reload`. -/
def pollStep (target : Nat) (sr : Bool) (evt : DebouncedEvent) : Bool :=
  match evt with
  | DebouncedEvent.NoticeWrite p => if p = target then true else sr
  | DebouncedEvent.Write p => if p = target then true else sr
  | DebouncedEvent.Create p => if p = target then true else sr
  | _ => sr

/-- The drain loop of `Reloadable::reload`: fold `pollStep` over every
queued event, starting from `should_reload = false`. -/
def drainPoll (target : Nat) (evts : List DebouncedEvent) : Bool :=
  evts.foldl (pollStep target) false

/-- Does an event match the `NoticeWrite | Write | Create` arm with path
equal to the target? -/
def relevantEv (target : Nat) (evt : DebouncedEvent) : Bool :=
  match evt with
  | DebouncedEvent.NoticeWrite p => p = target
  | DebouncedEvent.Write p => p = target
  | DebouncedEvent.Create p => p = target
  | _ => false

/-- Mirrors `Reloadable::reload` (the check-and-reload operation): drain
all queued events, and if a relevant event was seen or no library is
loaded, perform `reload_now`; otherwise do nothing and return `Ok(())`. -/
def reload {Host : Type} (loader : Nat → Option (ReloadApi Host))
    (r : Reloadable Host) :
    Reloadable Host × List Ev × Except Error Unit :=
  if drainPoll r.path r.rx || r.sym.isNone then
    reload_now loader { r with rx := ([] : List DebouncedEvent) }
  else
    ({ r with rx := ([] : List DebouncedEvent) }, [], Except.ok ())

/-- Mirrors `Drop for Reloadable`: if a library is loaded, invoke its
`deinit` entry, then release it.  Returns the final host, buffer and
trace. -/
def dropReloadable {Host : Type} (r : Reloadable Host) :
    Host × List Nat × List Ev :=
  match r.sym with
  | some (i, api) =>
      let out := api.deinit r.host r.state
      (out.1, out.2, [Ev.deinit i, Ev.release i])
  | none => (r.host, r.state, [])

/-- Environment for `Reloadable::new`: result of the initial load
attempt, whether `notify::watcher` creation succeeds, the result of
`PathBuf::parent` on the given path, whether `watcher.watch` succeeds,
and the result of `canonicalize`. -/
structure NewEnv (Host : Type) where
  loadResult : Option (ReloadApi Host)
  watcherOk : Bool
  parent : Option Nat
  watchOk : Bool
  canonical : Option Nat

/-- Outcome of construction: a `Reloadable` plus the trace of entry
points invoked, an error returned to the caller, or an abnormal
process termination (a panic). -/
inductive ConsResult (Host : Type) where
  | ok (r : Reloadable Host) (tr : List Ev)
  | err (e : Error)
  | panicked

/-- Mirrors `Reloadable::new`, step by step: load the library and
resolve `RELOAD_API` (`?` on `Io` failure); query `size`; create the
watcher (`?` on `Watch` failure); take `path.parent().unwrap()` — a
panic when the path has no parent; `watcher.watch(..)` (`?` on `Watch`
failure); canonicalize the path (`?` on `Io` failure); then build the
struct with an empty buffer, resize it to `size`, invoke `init`, and
return it. -/
def new {Host : Type} (env : NewEnv Host) (host : Host) : ConsResult Host :=
  match env.loadResult with
  | none => ConsResult.err Error.Io
  | some api =>
      if !env.watcherOk then ConsResult.err Error.Watch
      else
        match env.parent with
        | none => ConsResult.panicked
        | some _ =>
            if !env.watchOk then ConsResult.err Error.Watch
            else
              match env.canonical with
              | none => ConsResult.err Error.Io
              | some cpath =>
                  ConsResult.ok
                    { path := cpath, sym := some (0, api),
                      state := (api.init host (realloc_buffer [] api.size)).2,
                      rx := [],
                      host := (api.init host (realloc_buffer [] api.size)).1,
                      nextLoad := 1 }
                    [Ev.init 0]

/-- An orchestrator operation issued by the host (plus `deliver`, which
models the watcher's background thread appending events to the queue). -/
inductive Op where
  | deliver (evts : List DebouncedEvent)
  | checkAndReload
  | reloadNow
  | update
  | saveState
  | loadState (s : SaveState)

/-- Is an `Except` result `ok`? -/
def exOk : Except Error Unit → Bool
  | Except.ok _ => true
  | Except.error _ => false

/-- One orchestrator operation: the resulting state, the module entry
points invoked, and how many successful `reload_now` calls happened
(0 or 1). -/
def step {Host : Type} (loader : Nat → Option (ReloadApi Host))
    (r : Reloadable Host) : Op → Reloadable Host × List Ev × Nat
  | Op.deliver evts => ({ r with rx := r.rx ++ evts }, [], 0)
  | Op.checkAndReload =>
      ((reload loader r).1, (reload loader r).2.1,
        if (drainPoll r.path r.rx || r.sym.isNone) && exOk (reload loader r).2.2
        then 1 else 0)
  | Op.reloadNow =>
      ((reload_now loader r).1, (reload_now loader r).2.1,
        if exOk (reload_now loader r).2.2 then 1 else 0)
  | Op.update => ((update r).1, (update r).2.1, 0)
  | Op.saveState => (r, [], 0)
  | Op.loadState s => (load_state r s, [], 0)

/-- Run a sequence of orchestrator operations, concatenating traces and
summing the successful-`reload_now` counts. -/
def run {Host : Type} (loader : Nat → Option (ReloadApi Host))
    (r : Reloadable Host) : List Op → Reloadable Host × List Ev × Nat
  | [] => (r, [], 0)
  | op :: ops =>
      ((run loader (step loader r op).1 ops).1,
       (step loader r op).2.1 ++ (run loader (step loader r op).1 ops).2.1,
       (step loader r op).2.2 + (run loader (step loader r op).1 ops).2.2)

/-- Is an event an invocation of `init`? -/
def isInit : Ev → Bool
  | Ev.init _ => true
  | _ => false

/-- Is an event an invocation of `reload`? -/
def isReloadEv : Ev → Bool
  | Ev.reload _ => true
  | _ => false

/-- A concrete module API used to evaluate the development on closed
inputs: 8-byte state, all entry points leave host and buffer unchanged,
`update` signals `No`. -/
def apiW : ReloadApi Unit where
  size := 8
  init := fun h s => (h, s)
  reload := fun h s => (h, s)
  update := fun h s => (h, s, ShouldQuit.No)
  unload := fun h s => (h, s)
  deinit := fun h s => (h, s)

/-- A concrete loader that always succeeds with `apiW`. -/
def loaderW : Nat → Option (ReloadApi Unit) := fun _ => some apiW

/-- A concrete loader that always fails. -/
def loaderFail : Nat → Option (ReloadApi Unit) := fun _ => none

/-- A concrete construction environment on which `new` succeeds. -/
def envW : NewEnv Unit where
  loadResult := some apiW
  watcherOk := true
  parent := some 3
  watchOk := true
  canonical := some 5

/-- A concrete construction environment whose path has no parent
directory while the load itself succeeds. -/
def envPanic : NewEnv Unit where
  loadResult := some apiW
  watcherOk := true
  parent := none
  watchOk := true
  canonical := some 5

/-- The orchestrator produced by `new envW ()`. -/
def rW : Reloadable Unit where
  path := 5
  sym := some (0, apiW)
  state := [0]
  rx := []
  host := ()
  nextLoad := 1

/-- A concrete orchestrator with no library loaded. -/
def rUnl : Reloadable Unit where
  path := 5
  sym := none
  state := [0]
  rx := []
  host := ()
  nextLoad := 1

/-- A concrete orchestrator with a relevant event queued. -/
def rEvt : Reloadable Unit where
  path := 5
  sym := some (0, apiW)
  state := [0]
  rx := [DebouncedEvent.Write 5]
  host := ()
  nextLoad := 1

/-- An empty snapshot. -/
def sW : SaveState where
  state := []

/-! ## Buffer lemmas -/

theorem wordBytes_length (w : Nat) : (wordBytes w).length = 8 := rfl

theorem bytesOf_append (xs ys : List Nat) :
    bytesOf (xs ++ ys) = bytesOf xs ++ bytesOf ys := by
  induction xs with
  | nil => rfl
  | cons w ws ih => simp [bytesOf, ih]

theorem bytesOf_replicate_zero (n : Nat) :
    bytesOf (List.replicate n 0) = List.replicate (8 * n) 0 := by
  induction n with
  | zero => rfl
  | succ k ih =>
      rw [List.replicate_succ]
      show wordBytes 0 ++ bytesOf (List.replicate k 0) = _
      rw [ih, Nat.mul_succ, Nat.add_comm, List.replicate_add]
      rfl

theorem bytesOf_take (xs : List Nat) (n : Nat) :
    bytesOf (xs.take n) = (bytesOf xs).take (8 * n) := by
  induction xs generalizing n with
  | nil => simp [bytesOf]
  | cons w ws ih =>
      cases n with
      | zero => simp [bytesOf]
      | succ k =>
          rw [List.take_succ_cons]
          show wordBytes w ++ bytesOf (List.take k ws) = _
          rw [ih]
          show _ = (wordBytes w ++ bytesOf ws).take (8 * (k + 1))
          rw [Nat.mul_add, Nat.mul_one, Nat.add_comm (8 * k) 8,
            show (8 : Nat) = (wordBytes w).length from rfl, List.take_append]

theorem vecResize_length (v : List Nat) (n x : Nat) :
    (vecResize v n x).length = n := by
  unfold vecResize
  split
  · simp only [List.length_take]
    omega
  · simp only [List.length_append, List.length_replicate]
    omega

theorem realloc_buffer_length (v : List Nat) (size : Nat) :
    (realloc_buffer v size).length = (size + 7) / 8 :=
  vecResize_length v ((size + 7) / 8) 0

/-! ## Claim theorems: state buffer -/

/-- C5: `realloc_buffer` rounds the requested size up to whole 64-bit
words (the internal storage granularity), leaving a buffer of at least
the requested number of bytes; its byte view is exactly the old bytes
truncated when shrinking, and exactly the old bytes followed by a
zero-filled tail when growing. -/
theorem c5_realloc_buffer_spec (v : List Nat) (size : Nat) :
    (realloc_buffer v size).length = (size + 7) / 8
  ∧ size ≤ 8 * (realloc_buffer v size).length
  ∧ ((realloc_buffer v size).length ≤ v.length →
      bytesOf (realloc_buffer v size)
        = (bytesOf v).take (8 * (realloc_buffer v size).length))
  ∧ (v.length ≤ (realloc_buffer v size).length →
      bytesOf (realloc_buffer v size)
        = bytesOf v
          ++ List.replicate (8 * ((realloc_buffer v size).length - v.length)) 0) := by
  have hlen : (realloc_buffer v size).length = (size + 7) / 8 :=
    realloc_buffer_length v size
  refine ⟨hlen, ?_, ?_, ?_⟩
  · have hdm := Nat.div_add_mod (size + 7) 8
    have hmlt : (size + 7) % 8 < 8 := Nat.mod_lt _ (by omega)
    omega
  · intro hle
    rw [hlen] at hle ⊢
    unfold realloc_buffer vecResize
    rw [if_pos hle, bytesOf_take]
  · intro hge
    rw [hlen] at hge ⊢
    unfold realloc_buffer vecResize
    rcases Nat.lt_or_ge v.length ((size + 7) / 8) with hlt | hge2
    · rw [if_neg (by omega), bytesOf_append, bytesOf_replicate_zero]
    · have heq : (size + 7) / 8 = v.length := Nat.le_antisymm hge2 hge
      rw [if_pos (le_of_eq heq), heq]
      simp [bytesOf_take]

/-- Witness for C5 at concrete inputs covering both the shrink and the
grow hypotheses. -/
theorem c5_realloc_buffer_spec_witness :
    (bytesOf (realloc_buffer [1, 2] 8)
      = (bytesOf [1, 2]).take (8 * (realloc_buffer [1, 2] 8).length))
  ∧ (bytesOf (realloc_buffer [1] 24)
      = bytesOf [1]
        ++ List.replicate (8 * ((realloc_buffer [1] 24).length - 1)) 0) :=
  ⟨(c5_realloc_buffer_spec [1, 2] 8).2.2.1 (by decide),
   (c5_realloc_buffer_spec [1] 24).2.2.2 (by decide)⟩

/-- C6: restoring a snapshot previously produced by `save_state` and
snapshotting again yields the very same snapshot: `load_state` replaces
the buffer contents exactly with the snapshot's bytes. -/
theorem c6_save_load_roundtrip {Host : Type} (r r' : Reloadable Host) :
    save_state (load_state r (save_state r')) = save_state r' := rfl

/-- C7: `update` on an unloaded orchestrator invokes no module entry
point and returns `ShouldQuit.No`; on a loaded orchestrator it invokes
exactly the module's `update` entry and returns that entry's
continuation signal unchanged. -/
theorem c7_update_spec {Host : Type} (r : Reloadable Host) :
    (r.sym = none → update r = (r, [], ShouldQuit.No))
  ∧ (∀ i api, r.sym = some (i, api) →
      update r
        = ({ r with
              host := (api.update r.host r.state).1,
              state := (api.update r.host r.state).2.1 },
           [Ev.update i], (api.update r.host r.state).2.2)) := by
  constructor
  · intro h
    simp [update, h]
  · intro i api h
    simp [update, h]

/-- Witness for C7 at a concrete unloaded and a concrete loaded
orchestrator. -/
theorem c7_update_spec_witness :
    update rUnl = (rUnl, [], ShouldQuit.No)
  ∧ update rW = (rW, [Ev.update 0], ShouldQuit.No) :=
  ⟨(c7_update_spec rUnl).1 rfl, (c7_update_spec rW).2 0 apiW rfl⟩

/-! ## Watcher and reload lemmas -/

theorem update_of_sym_none {Host : Type} (r : Reloadable Host)
    (h : r.sym = none) : update r = (r, [], ShouldQuit.No) := by
  simp [update, h]

theorem pollStep_eq (target : Nat) (sr : Bool) (evt : DebouncedEvent) :
    pollStep target sr evt = (sr || relevantEv target evt) := by
  cases evt <;> simp [pollStep, relevantEv, Bool.or_comm]

theorem drainPoll_any (target : Nat) (evts : List DebouncedEvent) :
    drainPoll target evts = evts.any (relevantEv target) := by
  have key : ∀ (l : List DebouncedEvent) (sr : Bool),
      l.foldl (pollStep target) sr = (sr || l.any (relevantEv target)) := by
    intro l
    induction l with
    | nil => simp
    | cons e es ih =>
        intro sr
        rw [List.foldl_cons, pollStep_eq, ih, List.any_cons, Bool.or_assoc]
  simpa [drainPoll] using key evts false

theorem unload_phase_sym {Host : Type} (r : Reloadable Host) :
    (unload_phase r).1.sym = none := by
  unfold unload_phase
  cases hs : r.sym with
  | none => exact hs
  | some p => cases p; rfl

theorem unload_phase_nextLoad {Host : Type} (r : Reloadable Host) :
    (unload_phase r).1.nextLoad = r.nextLoad := by
  unfold unload_phase
  cases hs : r.sym with
  | none => rfl
  | some p => cases p; rfl

theorem unload_phase_rx {Host : Type} (r : Reloadable Host) :
    (unload_phase r).1.rx = r.rx := by
  unfold unload_phase
  cases hs : r.sym with
  | none => rfl
  | some p => cases p; rfl

theorem unload_phase_path {Host : Type} (r : Reloadable Host) :
    (unload_phase r).1.path = r.path := by
  unfold unload_phase
  cases hs : r.sym with
  | none => rfl
  | some p => cases p; rfl

theorem unload_phase_tr_some {Host : Type} (r : Reloadable Host)
    (i : Nat) (api : ReloadApi Host) (h : r.sym = some (i, api)) :
    (unload_phase r).2 = [Ev.unload i, Ev.release i] := by
  unfold unload_phase
  rw [h]

theorem unload_phase_tr {Host : Type} (r : Reloadable Host) :
    (unload_phase r).2 = [] ∨ ∃ i, (unload_phase r).2 = [Ev.unload i, Ev.release i] := by
  unfold unload_phase
  cases hs : r.sym with
  | none => exact Or.inl rfl
  | some p => exact Or.inr ⟨p.1, by cases p; rfl⟩

theorem unload_phase_countP_init {Host : Type} (r : Reloadable Host) :
    (unload_phase r).2.countP isInit = 0 := by
  rcases unload_phase_tr r with h | ⟨i, h⟩ <;> simp [h, isInit]

theorem unload_phase_countP_reload {Host : Type} (r : Reloadable Host) :
    (unload_phase r).2.countP isReloadEv = 0 := by
  rcases unload_phase_tr r with h | ⟨i, h⟩ <;> simp [h, isReloadEv]

theorem unload_phase_no_reload {Host : Type} (r : Reloadable Host) (j : Nat) :
    ¬ Ev.reload j ∈ (unload_phase r).2 := by
  rcases unload_phase_tr r with h | ⟨i, h⟩ <;> simp [h]

theorem unload_phase_no_init {Host : Type} (r : Reloadable Host) (j : Nat) :
    ¬ Ev.init j ∈ (unload_phase r).2 := by
  rcases unload_phase_tr r with h | ⟨i, h⟩ <;> simp [h]

theorem reload_now_eq_fail {Host : Type} (loader : Nat → Option (ReloadApi Host))
    (r : Reloadable Host) (h : loader r.nextLoad = none) :
    reload_now loader r
      = ({ (unload_phase r).1 with nextLoad := r.nextLoad + 1 },
         (unload_phase r).2, Except.error Error.Io) := by
  unfold reload_now
  rw [unload_phase_nextLoad, h]

theorem reload_now_eq_ok {Host : Type} (loader : Nat → Option (ReloadApi Host))
    (r : Reloadable Host) (api : ReloadApi Host)
    (h : loader r.nextLoad = some api) :
    reload_now loader r
      = ({ (unload_phase r).1 with
            host := (api.reload (unload_phase r).1.host
              (realloc_buffer (unload_phase r).1.state api.size)).1,
            state := (api.reload (unload_phase r).1.host
              (realloc_buffer (unload_phase r).1.state api.size)).2,
            sym := some (r.nextLoad, api),
            nextLoad := r.nextLoad + 1 },
         (unload_phase r).2 ++ [Ev.reload r.nextLoad], Except.ok ()) := by
  unfold reload_now
  rw [unload_phase_nextLoad, h]

theorem reload_now_spec {Host : Type} (loader : Nat → Option (ReloadApi Host))
    (r : Reloadable Host) :
    (reload_now loader r).2.1.countP isInit = 0
  ∧ (reload_now loader r).2.1.countP isReloadEv
      = (if exOk (reload_now loader r).2.2 then 1 else 0)
  ∧ (∀ j, Ev.reload j ∈ (reload_now loader r).2.1 → j = r.nextLoad)
  ∧ (reload_now loader r).1.nextLoad = r.nextLoad + 1
  ∧ (reload_now loader r).1.rx = r.rx
  ∧ (reload_now loader r).1.path = r.path := by
  cases hl : loader r.nextLoad with
  | none =>
      rw [reload_now_eq_fail loader r hl]
      refine ⟨unload_phase_countP_init r, ?_, ?_, rfl,
        unload_phase_rx r, unload_phase_path r⟩
      · simp [exOk, unload_phase_countP_reload r]
      · intro j hj
        exact absurd hj (unload_phase_no_reload r j)
  | some api =>
      rw [reload_now_eq_ok loader r api hl]
      refine ⟨?_, ?_, ?_, rfl, unload_phase_rx r, unload_phase_path r⟩
      · simp [List.countP_append, unload_phase_countP_init r, isInit]
      · simp [exOk, List.countP_append, unload_phase_countP_reload r,
          isReloadEv, List.countP_cons]
      · intro j hj
        rcases List.mem_append.mp hj with hj | hj
        · exact absurd hj (unload_phase_no_reload r j)
        · simpa using hj

theorem reload_rx {Host : Type} (loader : Nat → Option (ReloadApi Host))
    (r : Reloadable Host) : (reload loader r).1.rx = [] := by
  unfold reload
  split
  · exact (reload_now_spec loader { r with rx := [] }).2.2.2.2.1
  · rfl

/-! ## Claim theorems: watcher and reload decisions -/

/-- C9: the drain loop of `reload` reports a change exactly when at
least one queued `Create`/`Write`/`NoticeWrite` event carries the
watched canonicalized path; events for other paths or of other kinds
never set the flag; and `reload` empties the whole queue. -/
theorem c9_poll_spec (target : Nat) (evts : List DebouncedEvent) :
    (drainPoll target evts = true ↔ ∃ e ∈ evts, relevantEv target e = true)
  ∧ ((∀ e ∈ evts, relevantEv target e = false) → drainPoll target evts = false)
  ∧ (∀ {Host : Type} (loader : Nat → Option (ReloadApi Host))
       (r : Reloadable Host), (reload loader r).1.rx = []) := by
  refine ⟨?_, ?_, fun loader r => reload_rx loader r⟩
  · rw [drainPoll_any, List.any_eq_true]
  · intro hnone
    rw [drainPoll_any]
    simp only [List.any_eq_false]
    intro e he
    simp [hnone e he]

/-- Witness for C9 at a concrete queue holding one relevant event, one
event for another path, and one event of an ignored kind. -/
theorem c9_poll_spec_witness :
    (drainPoll 5 [DebouncedEvent.Chmod 5, DebouncedEvent.Write 7,
        DebouncedEvent.Write 5] = true
      ↔ ∃ e ∈ [DebouncedEvent.Chmod 5, DebouncedEvent.Write 7,
          DebouncedEvent.Write 5], relevantEv 5 e = true)
  ∧ ((∀ e ∈ [DebouncedEvent.Chmod 5, DebouncedEvent.Write 7,
        DebouncedEvent.Write 5], relevantEv 5 e = false) →
      drainPoll 5 [DebouncedEvent.Chmod 5, DebouncedEvent.Write 7,
        DebouncedEvent.Write 5] = false)
  ∧ (reload loaderW rEvt).1.rx = [] :=
  ⟨(c9_poll_spec 5 _).1, (c9_poll_spec 5 _).2.1,
   (c9_poll_spec 5 []).2.2 loaderW rEvt⟩

/-- C4: `reload` (check-and-reload) performs `reload_now` exactly when
the drained queue reports a relevant change or no library is loaded; in
particular it retries whenever the orchestrator is unloaded, and when a
library is loaded and no relevant change was queued it only empties the
queue and returns `Ok(())`. -/
theorem c4_check_and_reload_spec {Host : Type}
    (loader : Nat → Option (ReloadApi Host)) (r : Reloadable Host) :
    ((drainPoll r.path r.rx || r.sym.isNone) = true →
      reload loader r = reload_now loader { r with rx := [] })
  ∧ ((drainPoll r.path r.rx || r.sym.isNone) = false →
      reload loader r = ({ r with rx := [] }, [], Except.ok ()))
  ∧ (r.sym = none → reload loader r = reload_now loader { r with rx := [] }) := by
  refine ⟨?_, ?_, ?_⟩
  · intro h
    simp only [reload]
    rw [if_pos h]
  · intro h
    simp only [reload]
    rw [if_neg (by simp [h])]
  · intro h
    simp only [reload]
    rw [if_pos (by simp [h])]

/-- Witness for C4: a loaded orchestrator with a relevant queued event
reloads, a loaded orchestrator with an empty queue is a no-op, and an
unloaded orchestrator retries with no event queued at all. -/
theorem c4_check_and_reload_spec_witness :
    reload loaderFail rEvt = reload_now loaderFail { rEvt with rx := [] }
  ∧ reload loaderFail rW = ({ rW with rx := [] }, [], Except.ok ())
  ∧ reload loaderFail rUnl = reload_now loaderFail { rUnl with rx := [] } :=
  ⟨(c4_check_and_reload_spec loaderFail rEvt).1 rfl,
   (c4_check_and_reload_spec loaderFail rW).2.1 rfl,
   (c4_check_and_reload_spec loaderFail rUnl).2.2 rfl⟩

/-- C2: a `reload_now` issued while a module is loaded invokes the
outgoing module's `unload` entry first, then releases the outgoing
library resource, and only then — if the fresh load succeeded — invokes
the incoming module's `reload` entry. -/
theorem c2_unload_release_reload_order {Host : Type}
    (loader : Nat → Option (ReloadApi Host)) (r : Reloadable Host)
    (i : Nat) (api : ReloadApi Host) (hsym : r.sym = some (i, api)) :
    (reload_now loader r).2.1
      = [Ev.unload i, Ev.release i]
        ++ (match loader r.nextLoad with
            | some _ => [Ev.reload r.nextLoad]
            | none => []) := by
  cases hl : loader r.nextLoad with
  | none =>
      rw [reload_now_eq_fail loader r hl, unload_phase_tr_some r i api hsym]
      simp
  | some api2 =>
      rw [reload_now_eq_ok loader r api2 hl, unload_phase_tr_some r i api hsym]

/-- Witness for C2: with a loaded module and a succeeding loader the
trace is `unload`, `release`, `reload`, in that order. -/
theorem c2_unload_release_reload_order_witness :
    (reload_now loaderW rW).2.1 = [Ev.unload 0, Ev.release 0, Ev.reload 1] :=
  c2_unload_release_reload_order loaderW rW 0 apiW rfl

/-- C3: when the loader fails inside `reload_now`, the call returns
`Err(Io)`, the orchestrator is left with no library loaded, its state
buffer and host are byte-for-byte those from immediately before the
failing load attempt (the post-`unload` values), and a subsequent
`update` invokes no module entry point. -/
theorem c3_failed_reload_spec {Host : Type}
    (loader : Nat → Option (ReloadApi Host)) (r : Reloadable Host)
    (hfail : loader r.nextLoad = none) :
    (reload_now loader r).2.2 = Except.error Error.Io
  ∧ (reload_now loader r).1.sym = none
  ∧ (reload_now loader r).1.state = (unload_phase r).1.state
  ∧ (reload_now loader r).1.host = (unload_phase r).1.host
  ∧ bytesOf (reload_now loader r).1.state = bytesOf (unload_phase r).1.state
  ∧ update (reload_now loader r).1
      = ((reload_now loader r).1, [], ShouldQuit.No) := by
  rw [reload_now_eq_fail loader r hfail]
  exact ⟨rfl, unload_phase_sym r, rfl, rfl, rfl,
    update_of_sym_none _ (unload_phase_sym r)⟩

/-- Witness for C3 with an always-failing loader on a loaded
orchestrator. -/
theorem c3_failed_reload_spec_witness :
    (reload_now loaderFail rW).2.2 = Except.error Error.Io
  ∧ (reload_now loaderFail rW).1.sym = none
  ∧ (reload_now loaderFail rW).1.state = (unload_phase rW).1.state
  ∧ (reload_now loaderFail rW).1.host = (unload_phase rW).1.host
  ∧ bytesOf (reload_now loaderFail rW).1.state
      = bytesOf (unload_phase rW).1.state
  ∧ update (reload_now loaderFail rW).1
      = ((reload_now loaderFail rW).1, [], ShouldQuit.No) :=
  c3_failed_reload_spec loaderFail rW rfl

/-! ## Operation-sequence lemmas -/

theorem reload_eq_pos {Host : Type} (loader : Nat → Option (ReloadApi Host))
    (r : Reloadable Host)
    (h : (drainPoll r.path r.rx || r.sym.isNone) = true) :
    reload loader r
      = reload_now loader { r with rx := ([] : List DebouncedEvent) } := by
  unfold reload
  rw [if_pos h]

theorem reload_eq_neg {Host : Type} (loader : Nat → Option (ReloadApi Host))
    (r : Reloadable Host)
    (h : (drainPoll r.path r.rx || r.sym.isNone) = false) :
    reload loader r
      = ({ r with rx := ([] : List DebouncedEvent) }, [], Except.ok ()) := by
  unfold reload
  rw [if_neg (by simp [h])]

theorem update_tr {Host : Type} (r : Reloadable Host) :
    (update r).2.1 = [] ∨ ∃ i, (update r).2.1 = [Ev.update i] := by
  unfold update
  cases hs : r.sym with
  | none => exact Or.inl rfl
  | some p => exact Or.inr ⟨p.1, by cases p; rfl⟩

theorem update_nextLoad {Host : Type} (r : Reloadable Host) :
    (update r).1.nextLoad = r.nextLoad := by
  unfold update
  cases hs : r.sym with
  | none => rfl
  | some p => cases p; rfl

theorem step_spec {Host : Type} (loader : Nat → Option (ReloadApi Host))
    (r : Reloadable Host) (op : Op) :
    (step loader r op).2.1.countP isInit = 0
  ∧ (step loader r op).2.1.countP isReloadEv = (step loader r op).2.2
  ∧ (∀ j, Ev.reload j ∈ (step loader r op).2.1 → r.nextLoad ≤ j)
  ∧ r.nextLoad ≤ (step loader r op).1.nextLoad := by
  cases op with
  | deliver evts => simp [step]
  | saveState => simp [step]
  | loadState s => simp [step, load_state]
  | update =>
      refine ⟨?_, ?_, ?_, ?_⟩
      · rcases update_tr r with h | ⟨i, h⟩ <;> simp [step, h, isInit]
      · rcases update_tr r with h | ⟨i, h⟩ <;> simp [step, h, isReloadEv]
      · intro j hj
        rcases update_tr r with h | ⟨i, h⟩ <;> simp [step, h] at hj
      · simp [step, update_nextLoad r]
  | reloadNow =>
      obtain ⟨h1, h2, h3, h4, -⟩ := reload_now_spec loader r
      simp only [step]
      exact ⟨h1, h2, fun j hj => le_of_eq (h3 j hj).symm,
        by rw [h4]; exact Nat.le_succ _⟩
  | checkAndReload =>
      cases hc : (drainPoll r.path r.rx || r.sym.isNone) with
      | true =>
          obtain ⟨h1, h2, h3, h4, -⟩ :=
            reload_now_spec loader { r with rx := ([] : List DebouncedEvent) }
          simp only [step, reload_eq_pos loader r hc, hc, Bool.true_and]
          exact ⟨h1, h2, fun j hj => le_of_eq (h3 j hj).symm,
            by rw [h4]; exact Nat.le_succ _⟩
      | false =>
          simp [step, reload_eq_neg loader r hc, hc]

theorem run_spec {Host : Type} (loader : Nat → Option (ReloadApi Host))
    (ops : List Op) : ∀ r : Reloadable Host,
    (run loader r ops).2.1.countP isInit = 0
  ∧ (run loader r ops).2.1.countP isReloadEv = (run loader r ops).2.2
  ∧ (∀ j, Ev.reload j ∈ (run loader r ops).2.1 → r.nextLoad ≤ j)
  ∧ r.nextLoad ≤ (run loader r ops).1.nextLoad := by
  induction ops with
  | nil => intro r; simp [run]
  | cons op ops ih =>
      intro r
      obtain ⟨s1, s2, s3, s4⟩ := step_spec loader r op
      obtain ⟨i1, i2, i3, i4⟩ := ih (step loader r op).1
      refine ⟨?_, ?_, ?_, ?_⟩
      · simp only [run, List.countP_append, s1, i1]
      · simp only [run, List.countP_append, s2, i2]
      · intro j hj
        simp only [run, List.mem_append] at hj
        rcases hj with hj | hj
        · exact s3 j hj
        · exact le_trans s4 (i3 j hj)
      · exact le_trans s4 i4

theorem new_ok_inv {Host : Type} (env : NewEnv Host) (h0 : Host)
    (r0 : Reloadable Host) (tr0 : List Ev)
    (h : new env h0 = ConsResult.ok r0 tr0) :
    tr0 = [Ev.init 0] ∧ r0.nextLoad = 1 := by
  unfold new at h
  split at h
  · simp at h
  · split at h
    · simp at h
    · split at h
      · simp at h
      · split at h
        · simp at h
        · split at h
          · simp at h
          · rw [ConsResult.ok.injEq] at h
            obtain ⟨h1, h2⟩ := h
            subst h1
            subst h2
            exact ⟨rfl, rfl⟩

/-! ## Claim theorems: lifecycle temporal properties -/

/-- C1: starting from a successful construction, over every sequence of
orchestrator operations `init` is invoked exactly once (during
construction, never by any later operation) and `reload` is invoked
exactly once per successful `reload_now` (and never during
construction); no load has both `init` and `reload` invoked for it. -/
theorem c1_init_once_reload_per_success {Host : Type} (env : NewEnv Host)
    (h0 : Host) (loader : Nat → Option (ReloadApi Host)) (ops : List Op)
    (r0 : Reloadable Host) (tr0 : List Ev)
    (hnew : new env h0 = ConsResult.ok r0 tr0) :
    (tr0 ++ (run loader r0 ops).2.1).countP isInit = 1
  ∧ tr0.countP isReloadEv = 0
  ∧ (tr0 ++ (run loader r0 ops).2.1).countP isReloadEv
      = (run loader r0 ops).2.2
  ∧ ∀ j, ¬(Ev.init j ∈ tr0 ++ (run loader r0 ops).2.1
      ∧ Ev.reload j ∈ tr0 ++ (run loader r0 ops).2.1) := by
  obtain ⟨htr, hnl⟩ := new_ok_inv env h0 r0 tr0 hnew
  obtain ⟨r1, r2, r3, r4⟩ := run_spec loader ops r0
  subst htr
  refine ⟨?_, ?_, ?_, ?_⟩
  · simp [List.countP_append, r1, isInit]
  · simp [isReloadEv]
  · simp [List.countP_append, r2, isReloadEv]
  · intro j hj
    obtain ⟨hi, hr⟩ := hj
    have hjz : j = 0 := by
      rcases List.mem_append.mp hi with hi | hi
      · simpa using hi
      · exact absurd (List.countP_eq_zero.mp r1 _ hi) (by simp [isInit])
    have hjpos : 1 ≤ j := by
      rcases List.mem_append.mp hr with hr | hr
      · simp at hr
      · rw [← hnl]
        exact r3 j hr
    omega

/-- Witness for C1: a concrete successful construction followed by an
immediate `reload_now` and an `update`. -/
theorem c1_init_once_reload_per_success_witness :
    (([Ev.init 0] ++ (run loaderW rW [Op.reloadNow, Op.update]).2.1).countP
        isInit = 1)
  ∧ ([Ev.init 0] : List Ev).countP isReloadEv = 0
  ∧ (([Ev.init 0] ++ (run loaderW rW [Op.reloadNow, Op.update]).2.1).countP
        isReloadEv = (run loaderW rW [Op.reloadNow, Op.update]).2.2)
  ∧ ∀ j, ¬(Ev.init j ∈ [Ev.init 0]
        ++ (run loaderW rW [Op.reloadNow, Op.update]).2.1
      ∧ Ev.reload j ∈ [Ev.init 0]
        ++ (run loaderW rW [Op.reloadNow, Op.update]).2.1) :=
  c1_init_once_reload_per_success envW () loaderW [Op.reloadNow, Op.update]
    rW [Ev.init 0] rfl

/-- C8: the claim says every construction failure — including path
processing on a path with no parent directory — is returned as an error
value.  The code instead calls `new_path.parent().unwrap()`, which
panics when `parent()` is `None` while the initial library load
succeeded: evaluating `new` on such an environment yields an abnormal
termination, not an error value. -/
theorem c8_construction_panics_on_parentless_path :
    new envPanic () = ConsResult.panicked := rfl

/-- C10: `load_state` replaces the buffer with exactly the snapshot's
contents and length; when the snapshot is shorter than the loaded
module's declared state size the buffer stays smaller than that size,
and subsequent `update`, `reload_now` (its unload half) and teardown
calls hand the module exactly this smaller buffer; `update` (whose
pointer-level writes cannot resize the `Vec`) and a no-change
`check_and_reload` leave the length unchanged, so no operation short of
a load restores the buffer-at-least-declared-size invariant. -/
theorem c10_load_state_below_declared_size {Host : Type}
    (loader : Nat → Option (ReloadApi Host)) (r : Reloadable Host)
    (i : Nat) (api : ReloadApi Host) (s : SaveState)
    (hsym : r.sym = some (i, api))
    (hshort : 8 * s.state.length < api.size)
    (hpres : ∀ h st, ((api.update h st).2.1).length = st.length) :
    (load_state r s).state = s.state
  ∧ (load_state r s).sym = some (i, api)
  ∧ 8 * (load_state r s).state.length < api.size
  ∧ update (load_state r s)
      = ({ load_state r s with
            host := (api.update r.host s.state).1,
            state := (api.update r.host s.state).2.1 },
         [Ev.update i], (api.update r.host s.state).2.2)
  ∧ (update (load_state r s)).1.state.length = s.state.length
  ∧ unload_phase (load_state r s)
      = ({ load_state r s with
            host := (api.unload r.host s.state).1,
            state := (api.unload r.host s.state).2,
            sym := none },
         [Ev.unload i, Ev.release i])
  ∧ dropReloadable (load_state r s)
      = ((api.deinit r.host s.state).1, (api.deinit r.host s.state).2,
         [Ev.deinit i, Ev.release i])
  ∧ (drainPoll r.path r.rx = false →
      (reload loader (load_state r s)).1.state = s.state) := by
  refine ⟨rfl, hsym, hshort, ?_, ?_, ?_, ?_, ?_⟩
  · simp [update, load_state, hsym]
  · have h4 : (update (load_state r s)).1.state
        = (api.update r.host s.state).2.1 := by
      simp [update, load_state, hsym]
    rw [h4, hpres]
  · simp [unload_phase, load_state, hsym]
  · simp [dropReloadable, load_state, hsym]
  · intro hd
    rw [reload_eq_neg loader (load_state r s)
      (by simp [load_state, hsym, hd])]
    rfl

/-- Witness for C10: the loaded `rW` (declared size 8) restored from an
empty snapshot keeps a zero-length buffer through `update` and a
no-change `check_and_reload`. -/
theorem c10_load_state_below_declared_size_witness :
    (load_state rW sW).state = sW.state
  ∧ 8 * (load_state rW sW).state.length < apiW.size
  ∧ (update (load_state rW sW)).1.state.length = sW.state.length
  ∧ (reload loaderW (load_state rW sW)).1.state = sW.state :=
  ⟨(c10_load_state_below_declared_size loaderW rW 0 apiW sW rfl (by decide)
      (fun _ _ => rfl)).1,
   (c10_load_state_below_declared_size loaderW rW 0 apiW sW rfl (by decide)
      (fun _ _ => rfl)).2.2.1,
   (c10_load_state_below_declared_size loaderW rW 0 apiW sW rfl (by decide)
      (fun _ _ => rfl)).2.2.2.2.1,
   (c10_load_state_below_declared_size loaderW rW 0 apiW sW rfl (by decide)
      (fun _ _ => rfl)).2.2.2.2.2.2.2 rfl⟩

end LiveReload
